/-
Verification of the ALSA native-MIDI playback engine
(`src/codecs/native_midi/native_midi_linux_alsa.c`).

The development shallowly embeds the data model and the operations of the
player: the playback-state enum, the song structure, the per-event
translation performed inside `native_midi_player_thread`, the player
thread's poll loop (as a step function over an explicit state, driven by a
list of "wake" inputs describing what each `poll` call reported), and the
controller-side entry points (`native_midi_start`, `native_midi_stop`,
`native_midi_pause`, `native_midi_resume`, `native_midi_setvolume`).

Transport interactions are recorded as explicit action traces so that
ordering properties (setup sequence, cleanup sequence, state writes) can be
stated and proved.
-/
import Mathlib

set_option linter.unusedVariables false
set_option linter.unnecessarySeqFocus false

/-! ## Constants (from `asoundef.h` / the source file) -/

def MIDI_CMD_NOTE_OFF : Nat := 0x80
def MIDI_CMD_NOTE_ON : Nat := 0x90
def MIDI_CMD_NOTE_PRESSURE : Nat := 0xA0
def MIDI_CMD_CONTROL : Nat := 0xB0
def MIDI_CMD_PGM_CHANGE : Nat := 0xC0
def MIDI_CMD_BENDER : Nat := 0xE0
def MIDI_SMF_META_EVENT : Nat := 0xFF
def MIDI_SMF_META_TEMPO : Nat := 0x51
def SND_SEQ_CLIENT_SYSTEM : Nat := 0
def SND_SEQ_PORT_SYSTEM_TIMER : Nat := 0
def MIDI_CTL_SUSTAIN : Nat := 0x40
def MIDI_CTL_ALL_NOTES_OFF : Nat := 0x7B
def MIDI_CTL_RESET_CONTROLLERS : Nat := 0x79
def MIDI_CTL_ALL_SOUNDS_OFF : Nat := 0x78
def MIDI_CHANNELS : Nat := 16

/-! ## Data model -/

/-- `native_midi_state`: the atomically published playback state. -/
inductive NMState
  | stopped
  | starting
  | playing
  | paused
deriving DecidableEq, Repr

/-- Numeric value of the state enum (declaration order in the C enum),
used for the `> NATIVE_MIDI_STOPPED` comparisons. -/
def NMState.toNat : NMState → Nat
  | .stopped => 0
  | .starting => 1
  | .playing => 2
  | .paused => 3

/-- `MIDIEvent` (from `native_midi_common.h`): one parsed event of the
linked list.  `data0`/`data1` are the two data bytes, `extraData` the
variable-length payload with its recorded length `extraLen`. -/
structure MIDIEvent where
  time : Nat
  status : Nat
  data0 : Nat
  data1 : Nat
  extraLen : Nat
  extraData : List Nat
deriving DecidableEq, Repr, Inhabited

/-- `struct _NativeMidiSong`.  The linked event list is a Lean list, the
destination address its two fields, and the player-thread handle a Bool
(present / reaped). -/
structure NativeMidiSong where
  playerthread : Bool
  ppqn : Nat
  evtlist : List MIDIEvent
  dstClient : Nat
  dstPort : Nat
  loopcount : Int
  endtime : Nat
  playerstate : NMState
  allow_pause : Bool
deriving DecidableEq, Repr

/-- The tail-scan of `native_midi_loadsong_RW`: `end_tick` is the time of
the last linked event (`while (end->next) end = end->next; endtime = end->time`). -/
def endTimeOf (evts : List MIDIEvent) : Nat :=
  (evts.getLastD default).time

/-- The song fields as `native_midi_loadsong_RW` initialises them:
state STOPPED, no thread, `endtime` from the tail scan. -/
def loadSong (evts : List MIDIEvent) (ppqn dstClient dstPort : Nat)
    (allow_pause : Bool) : NativeMidiSong :=
  { playerthread := false
    ppqn := ppqn
    evtlist := evts
    dstClient := dstClient
    dstPort := dstPort
    loopcount := 0
    endtime := endTimeOf evts
    playerstate := .stopped
    allow_pause := allow_pause }

/-! ## Event translation (the switch on `event->status & 0xF0`) -/

/-- Payload of a translated sequencer event. -/
inductive OutEvent
  | noteOn (channel note velocity : Nat)
  | noteOff (channel note velocity : Nat)
  | controller (channel param value : Nat)
  | keypress (channel note value : Nat)
  | pgmChange (channel program : Nat)
  | pitchBend (channel : Nat) (value : Int)
  | queueTempo (tempo : Nat)
deriving DecidableEq, Repr

/-- A translated, scheduled sequencer event: destination address, tick on
the session queue, payload. -/
structure TransEvt where
  destClient : Nat
  destPort : Nat
  tick : Nat
  payload : OutEvent
deriving DecidableEq, Repr

/-- The per-event translation in the body of `native_midi_player_thread`
(lines 557-606): the destination is re-set from the song and the event is
scheduled at its tick, then the status nibble is dispatched.  A meta tempo
event (status 0xFF, meta-type 0x51, exactly 3 extra bytes) becomes a
queue-tempo event — `snd_seq_ev_set_queue_tempo` retargets the event at the
system timer port.  Any other status is unhandled (`none`). -/
def translate_event (song : NativeMidiSong) (e : MIDIEvent) : Option TransEvt :=
  let cmd := e.status &&& 0xF0
  let channel := e.status &&& 0x0F
  if cmd = MIDI_CMD_NOTE_ON then
    some ⟨song.dstClient, song.dstPort, e.time, .noteOn channel e.data0 e.data1⟩
  else if cmd = MIDI_CMD_NOTE_OFF then
    some ⟨song.dstClient, song.dstPort, e.time, .noteOff channel e.data0 e.data1⟩
  else if cmd = MIDI_CMD_CONTROL then
    some ⟨song.dstClient, song.dstPort, e.time, .controller channel e.data0 e.data1⟩
  else if cmd = MIDI_CMD_NOTE_PRESSURE then
    some ⟨song.dstClient, song.dstPort, e.time, .keypress channel e.data0 e.data1⟩
  else if cmd = MIDI_CMD_PGM_CHANGE then
    some ⟨song.dstClient, song.dstPort, e.time, .pgmChange channel e.data0⟩
  else if cmd = MIDI_CMD_BENDER then
    some ⟨song.dstClient, song.dstPort, e.time,
      .pitchBend channel
        ((((e.data1 <<< 7) ||| (e.data0 &&& 0x7F) : Nat) : Int) - 8192)⟩
  else if e.status = MIDI_SMF_META_EVENT ∧ e.data0 = MIDI_SMF_META_TEMPO ∧
      e.extraLen = 3 then
    some ⟨SND_SEQ_CLIENT_SYSTEM, SND_SEQ_PORT_SYSTEM_TIMER, e.time,
      .queueTempo ((e.extraData.getD 0 0 <<< 16) |||
        (e.extraData.getD 1 0 <<< 8) ||| e.extraData.getD 2 0)⟩
  else
    none

/-! ## Transport actions (trace alphabet) -/

/-- Observable transport/state operations performed by the player thread,
in program order. -/
inductive SeqAction
  | allocQueue
  | startQueue
  | setNonblock (enabled : Bool)
  | setQueueTempo (tempo ppq : Nat)
  | enqueueEcho (tick : Nat)
  | enqueueQueueReset
  | sendVolumeSysex (vol : Nat)
  | stopQueueEvt
  | continueQueueEvt
  | setState (st : NMState)
  | outputEvent (te : TransEvt)
  | drainOutput
  | dropOutput
  | sndStopQueue
  | freeQueue
  | directController (channel ctl value : Nat)
deriving DecidableEq, Repr

/-! ## The player thread -/

/-- `native_midi_thread_cmd`: the control-channel opcodes. -/
inductive Cmd
  | quit
  | pause
  | resume
  | setvol
deriving DecidableEq, Repr

/-- One wake-up of the poll loop: at most one command frame read from the
control socket, whether the sequencer delivered this session's echo event,
whether `POLLOUT` was reported, and the outcomes of `snd_seq_event_output`
(non-`EAGAIN`) and `snd_seq_drain_output` (success). -/
structure Wake where
  cmd : Option (Cmd × Nat)
  echoIn : Bool
  pollout : Bool
  outputOk : Bool
  drainOk : Bool
deriving DecidableEq, Repr

/-- Thread-local state of `native_midi_player_thread`, plus two ghost
counters: `restarts` counts executions of the loop-rollback branch and
`sentinels` counts echo-sentinel enqueues (the pre-loop enqueue included). -/
structure PlayerState where
  current_volume : Nat
  playback_finished : Bool
  event : List MIDIEvent
  loopcount : Int
  pollout_enabled : Bool
  playerstate : NMState
  done : Bool
  restarts : Nat
  sentinels : Nat
deriving DecidableEq, Repr

/-- Dispatch of one command frame (the `switch` on `readbuf[0]`). -/
def stepCmd (s : PlayerState) (c : Option (Cmd × Nat)) :
    PlayerState × List SeqAction :=
  match c with
  | none => (s, [])
  | some (.quit, _) =>
    ({ s with event := [], loopcount := 0, playback_finished := true }, [])
  | some (.setvol, v) =>
    ({ s with current_volume := v }, [.sendVolumeSysex v])
  | some (.pause, _) =>
    ({ s with playerstate := .paused },
      [.sendVolumeSysex 0, .stopQueueEvt, .setState .paused])
  | some (.resume, _) =>
    ({ s with playerstate := .playing },
      [.continueQueueEvt, .sendVolumeSysex s.current_volume, .setState .playing])

/-- The tail of the loop body: if the sequencer is writable, translate the
event at the cursor and send it; the cursor advances on a successful send
and also when the event is unhandled (which consumes no output capacity). -/
def sendPhase (song : NativeMidiSong) (evcur : List MIDIEvent)
    (canWrite outputOk : Bool) : List MIDIEvent × List SeqAction :=
  if !canWrite then (evcur, [])
  else
    match evcur with
    | [] => (evcur, [])
    | e :: rest =>
      match translate_event song e with
      | none => (rest, [])
      | some te => if outputOk then (rest, [.outputEvent te]) else (evcur, [])

/-- The part of the loop body after command dispatch and echo receipt:
end-of-list handling (terminate / loop rollback / drain), then the send
phase.  `canWrite` is the `POLLOUT` report gated by the bit requested at
poll time. -/
def stepRest (song : NativeMidiSong) (s2 : PlayerState)
    (canWrite outputOk drainOk : Bool) : PlayerState × List SeqAction :=
  match s2.event with
  | [] =>
    if s2.playback_finished then
      if s2.loopcount = 0 then
        ({ s2 with done := true }, [])
      else
        let s3 := { s2 with
          event := song.evtlist
          loopcount := if 0 < s2.loopcount then s2.loopcount - 1 else s2.loopcount
          playback_finished := false
          pollout_enabled := true
          restarts := s2.restarts + 1
          sentinels := s2.sentinels + 1 }
        let sp := sendPhase song s3.event canWrite outputOk
        ({ s3 with event := sp.1 },
          [.enqueueQueueReset, .enqueueEcho (song.endtime + 1)] ++ sp.2)
    else
      (if drainOk then { s2 with pollout_enabled := false } else s2,
        [.drainOutput])
  | _ :: _ =>
    let sp := sendPhase song s2.event canWrite outputOk
    ({ s2 with event := sp.1 }, sp.2)

/-- One iteration of the `while (1)` poll loop (after `poll` returned):
command dispatch, echo receipt, then the rest of the body
(`stepRest`). -/
def step (song : NativeMidiSong) (s : PlayerState) (w : Wake) :
    PlayerState × List SeqAction :=
  let canWrite := w.pollout && s.pollout_enabled
  let c := stepCmd s w.cmd
  let s2 := if w.echoIn then { c.1 with playback_finished := true } else c.1
  let r := stepRest song s2 canWrite w.outputOk w.drainOk
  (r.1, c.2 ++ r.2)

/-- Run the poll loop over a list of wakes; the loop stops consuming wakes
once it has taken the `break` (`done`). -/
def run (song : NativeMidiSong) : PlayerState → List Wake → PlayerState × List SeqAction
  | s, [] => (s, [])
  | s, w :: ws =>
    if s.done then (s, [])
    else
      let st := step song s w
      let rest := run song st.1 ws
      (rest.1, st.2 ++ rest.2)

/-- Thread state right after the pre-loop setup: default volume 0x7F, the
cursor at the list head, the loop count as stored in the song, `POLLOUT`
requested, state PLAYING, one sentinel already enqueued. -/
def initPlayer (song : NativeMidiSong) : PlayerState :=
  { current_volume := 0x7F
    playback_finished := false
    event := song.evtlist
    loopcount := song.loopcount
    pollout_enabled := true
    playerstate := .playing
    done := false
    restarts := 0
    sentinels := 1 }

/-- The pre-loop setup actions of `native_midi_player_thread` in program
order (lines 443-470): allocate and start the queue, switch the sequencer
to non-blocking mode, set tempo 500000 and the song's ppqn, enqueue the
echo sentinel at `endtime + 1` (spinning on `EAGAIN`), publish PLAYING. -/
def playerSetupTrace (song : NativeMidiSong) : List SeqAction :=
  [.allocQueue, .startQueue, .setNonblock true,
   .setQueueTempo 500000 song.ppqn,
   .enqueueEcho (song.endtime + 1),
   .setState .playing]

/-- The post-loop cleanup actions (lines 617-636): back to blocking mode,
drop unsent output, stop / drain / free the queue, then the 16-channel
direct controller broadcast (sustain off, all notes off, reset controllers,
all sounds off). -/
def cleanupTrace : List SeqAction :=
  [.setNonblock false, .dropOutput, .sndStopQueue, .drainOutput, .freeQueue] ++
    (List.range MIDI_CHANNELS).flatMap fun i =>
      [.directController i MIDI_CTL_SUSTAIN 0,
       .directController i MIDI_CTL_ALL_NOTES_OFF 0,
       .directController i MIDI_CTL_RESET_CONTROLLERS 0,
       .directController i MIDI_CTL_ALL_SOUNDS_OFF 0]

/-- Final loop state and loop-body trace of a session driven by `ws`. -/
def sessionRun (song : NativeMidiSong) (ws : List Wake) :
    PlayerState × List SeqAction :=
  run song (initPlayer song) ws

/-- Complete action trace of one player-thread session: setup, the loop
body's actions, and — when the loop has terminated — the STOPPED write
followed by the cleanup sequence. -/
def sessionTrace (song : NativeMidiSong) (ws : List Wake) : List SeqAction :=
  playerSetupTrace song ++ (sessionRun song ws).2 ++
    (if (sessionRun song ws).1.done then
      SeqAction.setState .stopped :: cleanupTrace
    else [])

/-! ## Controller-side entry points -/

/-- Observable actions of the controller functions. -/
inductive CtrlAction
  | writeFrame (cmd : Cmd) (operand : Nat)
  | joinThread
  | spawnThread
  | setState (st : NMState)
deriving DecidableEq, Repr

/-- `native_midi_stop`: no-op without a song or thread handle; if the
thread is still above STOPPED, send QUIT first — a failed send aborts the
call (no join); otherwise join and clear the handle.  `writeOk` is the
outcome of the `write` call.  Returns the action trace and the updated
current song. -/
def native_midi_stop (cur : Option NativeMidiSong) (writeOk : Bool) :
    List CtrlAction × Option NativeMidiSong :=
  match cur with
  | none => ([], none)
  | some song =>
    if !song.playerthread then ([], some song)
    else if song.playerstate.toNat > NMState.stopped.toNat then
      if writeOk then
        ([.writeFrame .quit 0, .joinThread], some { song with playerthread := false })
      else
        ([.writeFrame .quit 0], some song)
    else
      ([.joinThread], some { song with playerthread := false })

/-- `native_midi_pause`: returns without writing unless a current song
exists, its state is not STOPPED and pausing is allowed; the `write`
result is discarded (`(void)!write`), so `writeOk` is unused. -/
def native_midi_pause (cur : Option NativeMidiSong) (writeOk : Bool) :
    List CtrlAction :=
  match cur with
  | none => []
  | some song =>
    if song.playerstate = .stopped then []
    else if !song.allow_pause then []
    else [.writeFrame .pause 0]

/-- `native_midi_resume`: returns without writing unless a current song
exists, its state is exactly PAUSED and pausing is allowed; the `write`
result is discarded. -/
def native_midi_resume (cur : Option NativeMidiSong) (writeOk : Bool) :
    List CtrlAction :=
  match cur with
  | none => []
  | some song =>
    if song.playerstate ≠ .paused then []
    else if !song.allow_pause then []
    else [.writeFrame .resume 0]

/-- `native_midi_setvolume`: returns without writing unless a current song
exists in state PLAYING; the operand is clamped to `[0, 0x7F]` before
being placed in the SETVOL frame; the `write` result is discarded. -/
def native_midi_setvolume (cur : Option NativeMidiSong) (volume : Int)
    (writeOk : Bool) : List CtrlAction :=
  match cur with
  | none => []
  | some song =>
    if song.playerstate ≠ .playing then []
    else
      let v : Int := if volume < 0 then 0 else if volume > 0x7F then 0x7F else volume
      [.writeFrame .setvol v.toNat]

/-- `native_midi_start`: if a previous thread handle exists and its state
is above STOPPED, send QUIT — a failed send aborts the call — then join;
then store the loop count, publish STARTING and spawn the player thread. -/
def native_midi_start (cur : Option NativeMidiSong) (loops : Int)
    (writeOk : Bool) : List CtrlAction × Option NativeMidiSong :=
  match cur with
  | none => ([], none)
  | some song =>
    if song.playerthread then
      if song.playerstate.toNat > NMState.stopped.toNat ∧ writeOk = false then
        ([.writeFrame .quit 0], some song)
      else
        let pre : List CtrlAction :=
          if song.playerstate.toNat > NMState.stopped.toNat then
            [.writeFrame .quit 0, .joinThread]
          else
            [.joinThread]
        (pre ++ [.setState .starting, .spawnThread],
          some { song with loopcount := loops, playerstate := NMState.starting, playerthread := true })
    else
      ([.setState .starting, .spawnThread],
        some { song with loopcount := loops, playerstate := NMState.starting, playerthread := true })

/-! ## Auxiliary predicates -/

/-- Is a wake's command frame a QUIT frame? -/
def isQuit : Option (Cmd × Nat) → Bool
  | some (.quit, _) => true
  | _ => false

/-- Does some wake of the list carry a QUIT frame? -/
def hasQuit (ws : List Wake) : Bool :=
  ws.any fun w => isQuit w.cmd

/-- The edges of the playback state diagram
`STOPPED → STARTING → PLAYING ⇄ PAUSED → STOPPED` (termination is reached
from PLAYING or PAUSED), with the self-loops arising from repeated
commands. -/
def edge : NMState → NMState → Bool
  | .stopped, .starting => true
  | .starting, .playing => true
  | .playing, .playing => true
  | .playing, .paused => true
  | .paused, .playing => true
  | .paused, .paused => true
  | .playing, .stopped => true
  | .paused, .stopped => true
  | _, _ => false

/-- The playback-state writes recorded in a trace, in order. -/
def stateWrites (tr : List SeqAction) : List NMState :=
  tr.filterMap fun a =>
    match a with
    | .setState st => some st
    | _ => none

/-- Actions that belong exclusively to the post-loop cleanup sequence. -/
def isCleanup : SeqAction → Bool
  | .dropOutput => true
  | .sndStopQueue => true
  | .freeQueue => true
  | .directController _ _ _ => true
  | _ => false

/-- Inside the loop the published state is PLAYING or PAUSED. -/
def GoodLoop (s : PlayerState) : Prop :=
  s.playerstate = .playing ∨ s.playerstate = .paused

/-! ## Step lemmas -/

theorem stepCmd_loop_fields (s : PlayerState) (c : Option (Cmd × Nat))
    (hq : isQuit c = false) :
    (stepCmd s c).1.loopcount = s.loopcount ∧
    (stepCmd s c).1.restarts = s.restarts ∧
    (stepCmd s c).1.sentinels = s.sentinels ∧
    (stepCmd s c).1.done = s.done ∧
    (stepCmd s c).1.event = s.event := by
  match c with
  | none => simp [stepCmd]
  | some (.quit, v) => simp [isQuit] at hq
  | some (.pause, v) => simp [stepCmd]
  | some (.resume, v) => simp [stepCmd]
  | some (.setvol, v) => simp [stepCmd]

theorem stepCmd_playerstate (s : PlayerState) (c : Option (Cmd × Nat)) :
    (stepCmd s c).1.playerstate =
      match c with
      | some (.pause, _) => NMState.paused
      | some (.resume, _) => NMState.playing
      | _ => s.playerstate := by
  match c with
  | none => simp [stepCmd]
  | some (.quit, v) => simp [stepCmd]
  | some (.pause, v) => simp [stepCmd]
  | some (.resume, v) => simp [stepCmd]
  | some (.setvol, v) => simp [stepCmd]

theorem stepCmd_stateWrites (s : PlayerState) (c : Option (Cmd × Nat)) :
    stateWrites (stepCmd s c).2 =
      match c with
      | some (.pause, _) => [NMState.paused]
      | some (.resume, _) => [NMState.playing]
      | _ => [] := by
  match c with
  | none => simp [stepCmd, stateWrites]
  | some (.quit, v) => simp [stepCmd, stateWrites]
  | some (.pause, v) => simp [stepCmd, stateWrites]
  | some (.resume, v) => simp [stepCmd, stateWrites]
  | some (.setvol, v) => simp [stepCmd, stateWrites]

theorem stepCmd_volume (s : PlayerState) (c : Option (Cmd × Nat)) :
    (stepCmd s c).1.current_volume =
      match c with
      | some (.setvol, v) => v
      | _ => s.current_volume := by
  match c with
  | none => simp [stepCmd]
  | some (.quit, v) => simp [stepCmd]
  | some (.pause, v) => simp [stepCmd]
  | some (.resume, v) => simp [stepCmd]
  | some (.setvol, v) => simp [stepCmd]

theorem sendPhase_stateWrites (song : NativeMidiSong) (evcur : List MIDIEvent)
    (cw ok : Bool) : stateWrites (sendPhase song evcur cw ok).2 = [] := by
  unfold sendPhase
  split
  · simp [stateWrites]
  · split
    · simp [stateWrites]
    · split
      · simp [stateWrites]
      · split <;> simp [stateWrites]

theorem sendPhase_no_cleanup (song : NativeMidiSong) (evcur : List MIDIEvent)
    (cw ok : Bool) : ∀ a ∈ (sendPhase song evcur cw ok).2, isCleanup a = false := by
  unfold sendPhase
  split
  · simp
  · split
    · simp
    · split
      · simp
      · split <;> simp [isCleanup]

theorem stepRest_playerstate (song : NativeMidiSong) (s2 : PlayerState)
    (cw ok dk : Bool) :
    (stepRest song s2 cw ok dk).1.playerstate = s2.playerstate := by
  unfold stepRest
  split
  · split
    · split
      · simp
      · simp
    · split <;> simp
  · simp

theorem stepRest_volume (song : NativeMidiSong) (s2 : PlayerState)
    (cw ok dk : Bool) :
    (stepRest song s2 cw ok dk).1.current_volume = s2.current_volume := by
  unfold stepRest
  split
  · split
    · split
      · simp
      · simp
    · split <;> simp
  · simp

theorem stepRest_stateWrites (song : NativeMidiSong) (s2 : PlayerState)
    (cw ok dk : Bool) :
    stateWrites (stepRest song s2 cw ok dk).2 = [] := by
  have h1 := sendPhase_stateWrites song song.evtlist cw ok
  have h2 := sendPhase_stateWrites song s2.event cw ok
  simp only [stateWrites] at h1 h2 ⊢
  unfold stepRest
  split
  · split
    · split
      · simp
      · simp [List.filterMap_append, h1]
    · split <;> simp
  · simp [h2]

theorem stepRest_no_cleanup (song : NativeMidiSong) (s2 : PlayerState)
    (cw ok dk : Bool) :
    ∀ a ∈ (stepRest song s2 cw ok dk).2, isCleanup a = false := by
  have h1 := sendPhase_no_cleanup song song.evtlist cw ok
  have h2 := sendPhase_no_cleanup song s2.event cw ok
  unfold stepRest
  split
  · split
    · split
      · simp
      · intro a ha
        rcases List.mem_append.1 ha with h | h
        · fin_cases h <;> rfl
        · exact h1 a h
    · simp [isCleanup]
  · exact fun a ha => h2 a ha

theorem stepCmd_no_cleanup (s : PlayerState) (c : Option (Cmd × Nat)) :
    ∀ a ∈ (stepCmd s c).2, isCleanup a = false := by
  match c with
  | none => simp [stepCmd]
  | some (.quit, v) => simp [stepCmd]
  | some (.pause, v) =>
    intro a ha
    simp only [stepCmd] at ha
    fin_cases ha <;> rfl
  | some (.resume, v) =>
    intro a ha
    simp only [stepCmd] at ha
    fin_cases ha <;> rfl
  | some (.setvol, v) =>
    intro a ha
    simp only [stepCmd] at ha
    fin_cases ha <;> rfl

theorem stepRest_loop_char (song : NativeMidiSong) (s2 : PlayerState)
    (cw ok dk : Bool) :
    ((stepRest song s2 cw ok dk).1.loopcount = s2.loopcount ∧
      (stepRest song s2 cw ok dk).1.restarts = s2.restarts ∧
      (stepRest song s2 cw ok dk).1.sentinels = s2.sentinels ∧
      (stepRest song s2 cw ok dk).1.done = s2.done) ∨
    (s2.loopcount = 0 ∧
      (stepRest song s2 cw ok dk).1.loopcount = 0 ∧
      (stepRest song s2 cw ok dk).1.restarts = s2.restarts ∧
      (stepRest song s2 cw ok dk).1.sentinels = s2.sentinels ∧
      (stepRest song s2 cw ok dk).1.done = true) ∨
    (s2.loopcount ≠ 0 ∧
      (stepRest song s2 cw ok dk).1.loopcount =
        (if 0 < s2.loopcount then s2.loopcount - 1 else s2.loopcount) ∧
      (stepRest song s2 cw ok dk).1.restarts = s2.restarts + 1 ∧
      (stepRest song s2 cw ok dk).1.sentinels = s2.sentinels + 1 ∧
      (stepRest song s2 cw ok dk).1.done = s2.done) := by
  unfold stepRest
  split
  · split
    · split
      · right; left
        refine ⟨by assumption, ?_, ?_, ?_, ?_⟩ <;> simp_all
      · right; right
        refine ⟨by assumption, ?_, ?_, ?_, ?_⟩ <;> simp
    · left
      split <;> simp
  · left
    simp

theorem step_fst (song : NativeMidiSong) (s : PlayerState) (w : Wake) :
    (step song s w).1 =
      (stepRest song
        (if w.echoIn then { (stepCmd s w.cmd).1 with playback_finished := true }
          else (stepCmd s w.cmd).1)
        (w.pollout && s.pollout_enabled) w.outputOk w.drainOk).1 := rfl

theorem step_snd (song : NativeMidiSong) (s : PlayerState) (w : Wake) :
    (step song s w).2 =
      (stepCmd s w.cmd).2 ++
      (stepRest song
        (if w.echoIn then { (stepCmd s w.cmd).1 with playback_finished := true }
          else (stepCmd s w.cmd).1)
        (w.pollout && s.pollout_enabled) w.outputOk w.drainOk).2 := rfl

theorem step_playerstate (song : NativeMidiSong) (s : PlayerState) (w : Wake) :
    (step song s w).1.playerstate = (stepCmd s w.cmd).1.playerstate := by
  rw [step_fst, stepRest_playerstate]
  split <;> rfl

theorem step_volume (song : NativeMidiSong) (s : PlayerState) (w : Wake) :
    (step song s w).1.current_volume = (stepCmd s w.cmd).1.current_volume := by
  rw [step_fst, stepRest_volume]
  split <;> rfl

theorem step_stateWrites (song : NativeMidiSong) (s : PlayerState) (w : Wake) :
    stateWrites (step song s w).2 = stateWrites (stepCmd s w.cmd).2 := by
  rw [step_snd]
  have h := stepRest_stateWrites song
    (if w.echoIn then { (stepCmd s w.cmd).1 with playback_finished := true }
      else (stepCmd s w.cmd).1)
    (w.pollout && s.pollout_enabled) w.outputOk w.drainOk
  simp only [stateWrites, List.filterMap_append] at h ⊢
  simp [h]

theorem step_no_cleanup (song : NativeMidiSong) (s : PlayerState) (w : Wake) :
    ∀ a ∈ (step song s w).2, isCleanup a = false := by
  rw [step_snd]
  intro a ha
  rcases List.mem_append.1 ha with h | h
  · exact stepCmd_no_cleanup s w.cmd a h
  · exact stepRest_no_cleanup song _ _ _ _ a h

theorem step_loop_char (song : NativeMidiSong) (s : PlayerState) (w : Wake)
    (hq : isQuit w.cmd = false) :
    ((step song s w).1.loopcount = s.loopcount ∧
      (step song s w).1.restarts = s.restarts ∧
      (step song s w).1.sentinels = s.sentinels ∧
      (step song s w).1.done = s.done) ∨
    (s.loopcount = 0 ∧
      (step song s w).1.loopcount = 0 ∧
      (step song s w).1.restarts = s.restarts ∧
      (step song s w).1.sentinels = s.sentinels ∧
      (step song s w).1.done = true) ∨
    (s.loopcount ≠ 0 ∧
      (step song s w).1.loopcount =
        (if 0 < s.loopcount then s.loopcount - 1 else s.loopcount) ∧
      (step song s w).1.restarts = s.restarts + 1 ∧
      (step song s w).1.sentinels = s.sentinels + 1 ∧
      (step song s w).1.done = s.done) := by
  obtain ⟨h1, h2, h3, h4, h5⟩ := stepCmd_loop_fields s w.cmd hq
  set s2 := (if w.echoIn then { (stepCmd s w.cmd).1 with playback_finished := true }
    else (stepCmd s w.cmd).1) with hs2
  have e1 : s2.loopcount = s.loopcount := by
    rw [hs2]; split <;> simp [h1]
  have e2 : s2.restarts = s.restarts := by
    rw [hs2]; split <;> simp [h2]
  have e3 : s2.sentinels = s.sentinels := by
    rw [hs2]; split <;> simp [h3]
  have e4 : s2.done = s.done := by
    rw [hs2]; split <;> simp [h4]
  have hchar := stepRest_loop_char song s2
    (w.pollout && s.pollout_enabled) w.outputOk w.drainOk
  rw [step_fst, ← hs2]
  rcases hchar with ⟨a1, a2, a3, a4⟩ | ⟨a0, a1, a2, a3, a4⟩ | ⟨a0, a1, a2, a3, a4⟩
  · left
    exact ⟨a1.trans e1, a2.trans e2, a3.trans e3, a4.trans e4⟩
  · right; left
    exact ⟨e1 ▸ a0, a1, a2.trans e2, a3.trans e3, a4⟩
  · right; right
    refine ⟨fun hc => a0 (by rw [e1]; exact hc), ?_, by rw [a2, e2], by rw [a3, e3],
      a4.trans e4⟩
    rw [a1, e1]

/-- Invariant tying the loop counter to the ghost counters: one sentinel
more than restarts; for a non-negative initial count the counter stays
non-negative and counter + restarts is conserved; a negative initial count
is never changed; the loop `break` only happens at counter zero. -/
def C1Inv (L : Int) (s : PlayerState) : Prop :=
  s.sentinels = s.restarts + 1 ∧
  (0 ≤ L → 0 ≤ s.loopcount ∧ s.loopcount + (s.restarts : Int) = L) ∧
  (L < 0 → s.loopcount = L) ∧
  (s.done = true → s.loopcount = 0)

theorem step_inv (song : NativeMidiSong) (L : Int) (s : PlayerState) (w : Wake)
    (hq : isQuit w.cmd = false) (h : C1Inv L s) : C1Inv L (step song s w).1 := by
  obtain ⟨i1, i2, i3, i4⟩ := h
  rcases step_loop_char song s w hq with ⟨a1, a2, a3, a4⟩ | ⟨a0, a1, a2, a3, a4⟩ |
    ⟨a0, a1, a2, a3, a4⟩
  · refine ⟨by rw [a3, a2, i1], fun hL => ?_, fun hL => ?_, fun hd => ?_⟩
    · rw [a1, a2]; exact i2 hL
    · rw [a1]; exact i3 hL
    · rw [a1]; exact i4 (a4 ▸ hd)
  · refine ⟨by rw [a3, a2, i1], fun hL => ?_, fun hL => ?_, fun hd => a1⟩
    · rw [a1, a2]
      have := i2 hL
      omega
    · exact absurd (i3 hL) (by rw [a0]; omega)
  · by_cases hpos : 0 < s.loopcount
    · simp only [hpos, if_pos] at a1
      refine ⟨by rw [a3, a2, i1], fun hL => ?_, fun hL => ?_, fun hd => ?_⟩
      · have := i2 hL
        rw [a1, a2]
        push_cast
        omega
      · exact absurd (i3 hL) (by omega)
      · exact absurd (i4 (a4 ▸ hd)) (by omega)
    · simp only [hpos, if_neg, if_false] at a1
      refine ⟨by rw [a3, a2, i1], fun hL => ?_, fun hL => ?_, fun hd => ?_⟩
      · have := i2 hL
        omega
      · rw [a1]; exact i3 hL
      · exact absurd (i4 (a4 ▸ hd)) a0
  
theorem run_inv (song : NativeMidiSong) (L : Int) (ws : List Wake)
    (s : PlayerState) (hq : hasQuit ws = false) (h : C1Inv L s) :
    C1Inv L (run song s ws).1 := by
  induction ws generalizing s with
  | nil => exact h
  | cons w ws ih =>
    have hq1 : isQuit w.cmd = false ∧ hasQuit ws = false := by
      simpa [hasQuit, Bool.or_eq_false_iff] using hq
    by_cases hd : s.done
    · simpa [run, hd] using h
    · simp only [run, hd, Bool.false_eq_true, if_false]
      exact ih _ hq1.2 (step_inv song L s w hq1.1 h)

theorem chain_snoc {R : NMState → NMState → Prop} :
    ∀ (l : List NMState) (a b : NMState), List.Chain R a l → R (l.getLastD a) b →
      List.Chain R a (l ++ [b])
  | [], a, b, _, hr => List.Chain.cons hr List.Chain.nil
  | c :: t, a, b, hc, hr => by
    rw [List.chain_cons] at hc
    rw [List.cons_append, List.chain_cons]
    rw [List.getLastD_cons] at hr
    exact ⟨hc.1, chain_snoc t c b hc.2 hr⟩

theorem run_chain (song : NativeMidiSong) (ws : List Wake) (s : PlayerState)
    (h : GoodLoop s) :
    List.Chain (fun a b => edge a b = true) s.playerstate
      (stateWrites (run song s ws).2) ∧
    GoodLoop (run song s ws).1 ∧
    (run song s ws).1.playerstate =
      (stateWrites (run song s ws).2).getLastD s.playerstate := by
  induction ws generalizing s with
  | nil => exact ⟨List.Chain.nil, h, rfl⟩
  | cons w ws ih =>
    by_cases hd : s.done
    · simp only [run, hd, if_true]
      exact ⟨List.Chain.nil, h, rfl⟩
    · simp only [run, hd, Bool.false_eq_true, if_false]
      have hsw : stateWrites ((step song s w).2 ++ (run song (step song s w).1 ws).2) =
          stateWrites (step song s w).2 ++ stateWrites (run song (step song s w).1 ws).2 := by
        simp [stateWrites, List.filterMap_append]
      have hps := step_playerstate song s w
      have hw := step_stateWrites song s w
      have hcw := stepCmd_stateWrites s w.cmd
      have hcp := stepCmd_playerstate s w.cmd
      match hc : w.cmd with
      | none | some (.quit, _) | some (.setvol, _) =>
        have h1 : stateWrites (step song s w).2 = [] := by
          rw [hw, hc]
          rw [hc] at hcw
          exact hcw
        have h2 : (step song s w).1.playerstate = s.playerstate := by
          rw [hps, hc]
          rw [hc] at hcp
          exact hcp
        have hg : GoodLoop (step song s w).1 := by rw [GoodLoop, h2]; exact h
        obtain ⟨c1, c2, c3⟩ := ih (step song s w).1 hg
        rw [h2] at c1 c3
        exact ⟨by simpa [hsw, h1] using c1, c2, by simpa [hsw, h1] using c3⟩
      | some (.pause, v) =>
        have h1 : stateWrites (step song s w).2 = [NMState.paused] := by
          rw [hw, hc]
          rw [hc] at hcw
          exact hcw
        have h2 : (step song s w).1.playerstate = NMState.paused := by
          rw [hps, hc]
          rw [hc] at hcp
          exact hcp
        have hg : GoodLoop (step song s w).1 := by rw [GoodLoop, h2]; right; rfl
        obtain ⟨c1, c2, c3⟩ := ih (step song s w).1 hg
        rw [h2] at c1 c3
        refine ⟨?_, c2, ?_⟩
        · rw [hsw, h1]
          rw [List.cons_append, List.nil_append, List.chain_cons]
          exact ⟨by rcases h with h | h <;> rw [h] <;> rfl, c1⟩
        · rw [hsw, h1, List.cons_append, List.nil_append, List.getLastD_cons]
          exact c3
      | some (.resume, v) =>
        have h1 : stateWrites (step song s w).2 = [NMState.playing] := by
          rw [hw, hc]
          rw [hc] at hcw
          exact hcw
        have h2 : (step song s w).1.playerstate = NMState.playing := by
          rw [hps, hc]
          rw [hc] at hcp
          exact hcp
        have hg : GoodLoop (step song s w).1 := by rw [GoodLoop, h2]; left; rfl
        obtain ⟨c1, c2, c3⟩ := ih (step song s w).1 hg
        rw [h2] at c1 c3
        refine ⟨?_, c2, ?_⟩
        · rw [hsw, h1]
          rw [List.cons_append, List.nil_append, List.chain_cons]
          exact ⟨by rcases h with h | h <;> rw [h] <;> rfl, c1⟩
        · rw [hsw, h1, List.cons_append, List.nil_append, List.getLastD_cons]
          exact c3

theorem run_no_cleanup (song : NativeMidiSong) (ws : List Wake) (s : PlayerState) :
    ∀ a ∈ (run song s ws).2, isCleanup a = false := by
  induction ws generalizing s with
  | nil => simp [run]
  | cons w ws ih =>
    by_cases hd : s.done
    · simp [run, hd]
    · simp only [run, hd, Bool.false_eq_true, if_false]
      intro a ha
      rcases List.mem_append.1 ha with h | h
      · exact step_no_cleanup song s w a h
      · exact ih (step song s w).1 a h

theorem setup_no_cleanup (song : NativeMidiSong) :
    ∀ a ∈ playerSetupTrace song, isCleanup a = false := by
  intro a ha
  simp only [playerSetupTrace] at ha
  fin_cases ha <;> rfl

/-- Recomposing the two 7-bit data bytes: for a data byte below 0x80 the
C expression `(data1 << 7) | (data0 & 0x7F)` equals `data1 * 128 + data0`. -/
theorem lor_shift7 (d1 d0 : Nat) (h : d0 < 128) :
    (d1 <<< 7) ||| (d0 &&& 0x7F) = d1 * 128 + d0 := by
  have h127 : d0 &&& 0x7F = d0 := by
    have hm := Nat.and_pow_two_sub_one_eq_mod d0 7
    norm_num at hm
    rw [hm]
    exact Nat.mod_eq_of_lt h
  have hs : d1 <<< 7 = 2 ^ 7 * d1 := by
    rw [Nat.shiftLeft_eq]
    ring
  calc (d1 <<< 7) ||| (d0 &&& 0x7F) = 2 ^ 7 * d1 ||| d0 := by rw [h127, hs]
    _ = 2 ^ 7 * d1 + d0 := (Nat.mul_add_lt_is_or (by norm_num; exact h) d1).symm
    _ = d1 * 128 + d0 := by ring

/-! ## Example inputs shared by witness instantiations -/

/-- A note-on event at tick 0. -/
def exNoteOn : MIDIEvent := ⟨0, 0x90, 60, 100, 0, []⟩

/-- A note-off event at tick 10. -/
def exNoteOff : MIDIEvent := ⟨10, 0x80, 60, 0, 0, []⟩

/-- A loaded two-event song. -/
def exSong : NativeMidiSong := loadSong [exNoteOn, exNoteOff] 96 20 5 false

/-- A wake that only reports output capacity. -/
def wSend : Wake := ⟨none, false, true, true, true⟩

/-- A wake that only delivers the session's echo event. -/
def wEcho : Wake := ⟨none, true, false, true, true⟩

/-! ## Claim theorems -/

/-- C6: for every event whose status nibble is the pitch-bend command, the
value sent to the transport is the 14-bit quantity reconstructed from the
two 7-bit data bytes (`data[1]` as the high 7 bits, `data[0]` as the low 7
bits), zero-centered by subtracting 8192, addressed to the song's
destination and scheduled at the event's tick. -/
theorem pitchbend_translation (song : NativeMidiSong) (e : MIDIEvent)
    (hcmd : e.status &&& 0xF0 = MIDI_CMD_BENDER) (h0 : e.data0 < 128) :
    translate_event song e =
      some ⟨song.dstClient, song.dstPort, e.time,
        .pitchBend (e.status &&& 0x0F)
          ((e.data1 : Int) * 128 + (e.data0 : Int) - 8192)⟩ := by
  have hb := lor_shift7 e.data1 e.data0 h0
  simp only [translate_event, hcmd, MIDI_CMD_NOTE_ON, MIDI_CMD_NOTE_OFF,
    MIDI_CMD_CONTROL, MIDI_CMD_NOTE_PRESSURE, MIDI_CMD_PGM_CHANGE,
    MIDI_CMD_BENDER]
  norm_num
  rw [hb]
  push_cast
  ring_nf

/-- C6 witness: the pitch-bend event with status 0xE3 and data bytes
(0x01, 0x40) translates to value 1 on channel 3. -/
theorem pitchbend_translation_witness :
    translate_event exSong ⟨5, 0xE3, 0x01, 0x40, 0, []⟩ =
      some ⟨exSong.dstClient, exSong.dstPort, 5,
        .pitchBend (0xE3 &&& 0x0F) ((0x40 : Int) * 128 + (0x01 : Int) - 8192)⟩ :=
  pitchbend_translation exSong ⟨5, 0xE3, 0x01, 0x40, 0, []⟩ (by decide) (by decide)

/-- C5: a meta tempo event (status 0xFF, meta-type 0x51, exactly 3 extra
bytes) is translated, on the same event-send path, into a queue-tempo
event carrying the 24-bit big-endian value
`extraData[0] << 16 | extraData[1] << 8 | extraData[2]` and addressed to
the system timer rather than the song's port; every handled non-meta event
re-asserts the song's destination; a meta-tempo event with `extraLen ≠ 3`
is unhandled: not translated, and the send phase advances the cursor past
it without emitting any output action. -/
theorem tempo_meta_translation (song : NativeMidiSong) (e : MIDIEvent) :
    (e.status = MIDI_SMF_META_EVENT → e.data0 = MIDI_SMF_META_TEMPO →
      e.extraLen = 3 →
      translate_event song e =
        some ⟨SND_SEQ_CLIENT_SYSTEM, SND_SEQ_PORT_SYSTEM_TIMER, e.time,
          .queueTempo ((e.extraData.getD 0 0 <<< 16) |||
            (e.extraData.getD 1 0 <<< 8) ||| e.extraData.getD 2 0)⟩) ∧
    (∀ te, translate_event song e = some te → e.status ≠ MIDI_SMF_META_EVENT →
      te.destClient = song.dstClient ∧ te.destPort = song.dstPort) ∧
    (e.status = MIDI_SMF_META_EVENT → e.data0 = MIDI_SMF_META_TEMPO →
      e.extraLen ≠ 3 →
      translate_event song e = none ∧
      ∀ rest ok, sendPhase song (e :: rest) true ok = (rest, [])) := by
  refine ⟨fun hs hd hl => ?_, fun te ht hne => ?_, fun hs hd hl => ?_⟩
  · simp only [translate_event, hs, hd, hl, MIDI_CMD_NOTE_ON, MIDI_CMD_NOTE_OFF,
      MIDI_CMD_CONTROL, MIDI_CMD_NOTE_PRESSURE, MIDI_CMD_PGM_CHANGE,
      MIDI_CMD_BENDER, MIDI_SMF_META_EVENT, MIDI_SMF_META_TEMPO, and_self,
      if_true]
    rw [if_neg (by decide), if_neg (by decide), if_neg (by decide),
      if_neg (by decide), if_neg (by decide), if_neg (by decide)]
  · simp only [translate_event] at ht
    split_ifs at ht with h1 h2 h3 h4 h5 h6 h7
    all_goals first
      | exact absurd h7.1 hne
      | (injection ht with h; rw [← h]; exact ⟨rfl, rfl⟩)
  · have hnone : translate_event song e = none := by
      simp only [translate_event, hs, hd, hl, MIDI_SMF_META_EVENT,
        MIDI_SMF_META_TEMPO]
      rw [if_neg (by decide), if_neg (by decide), if_neg (by decide),
        if_neg (by decide), if_neg (by decide), if_neg (by decide),
        if_neg (by simp [hl])]
    refine ⟨hnone, fun rest ok => ?_⟩
    simp [sendPhase, hnone]

/-- C5 witness: a tempo meta event with payload `[0x07, 0xA1, 0x20]`
sets tempo 500000 at the system timer; the same event with `extraLen = 2`
is dropped with the cursor advancing. -/
theorem tempo_meta_translation_witness :
    (translate_event exSong ⟨5, 0xFF, 0x51, 0, 3, [0x07, 0xA1, 0x20]⟩ =
      some ⟨SND_SEQ_CLIENT_SYSTEM, SND_SEQ_PORT_SYSTEM_TIMER, 5,
        .queueTempo ((0x07 <<< 16) ||| (0xA1 <<< 8) ||| 0x20)⟩) ∧
    (translate_event exSong ⟨5, 0xFF, 0x51, 0, 2, [0x07, 0xA1]⟩ = none ∧
      sendPhase exSong (⟨5, 0xFF, 0x51, 0, 2, [0x07, 0xA1]⟩ :: [exNoteOn])
        true true = ([exNoteOn], [])) :=
  ⟨(tempo_meta_translation exSong ⟨5, 0xFF, 0x51, 0, 3, [0x07, 0xA1, 0x20]⟩).1
      rfl rfl rfl,
    ((tempo_meta_translation exSong ⟨5, 0xFF, 0x51, 0, 2, [0x07, 0xA1]⟩).2.2
        rfl rfl (by decide)).1,
    ((tempo_meta_translation exSong ⟨5, 0xFF, 0x51, 0, 2, [0x07, 0xA1]⟩).2.2
        rfl rfl (by decide)).2 [exNoteOn] true⟩

/-- C4: `pause()` writes no frame unless a current song exists, its state
is strictly above STOPPED and its pause-allowed flag is set; `resume()`
writes no frame unless a current song exists and its state is exactly
PAUSED. -/
theorem pause_resume_preconditions (cur : Option NativeMidiSong) (wok : Bool) :
    (native_midi_pause none wok = []) ∧
    (∀ song, cur = some song →
      ¬(NMState.stopped.toNat < song.playerstate.toNat ∧
        song.allow_pause = true) →
      native_midi_pause cur wok = []) ∧
    (native_midi_resume none wok = []) ∧
    (∀ song, cur = some song → song.playerstate ≠ .paused →
      native_midi_resume cur wok = []) := by
  refine ⟨rfl, fun song hc hne => ?_, rfl, fun song hc hne => ?_⟩
  · subst hc
    rw [native_midi_pause]
    by_cases hstop : song.playerstate = NMState.stopped
    · rw [if_pos hstop]
    · rw [if_neg hstop]
      have hlt : NMState.stopped.toNat < song.playerstate.toNat := by
        rcases hst : song.playerstate with _ | _ | _ | _
        · exact absurd hst hstop
        · decide
        · decide
        · decide
      have hap : song.allow_pause = false := by
        rcases hb : song.allow_pause
        · rfl
        · exact absurd ⟨hlt, hb⟩ hne
      rw [hap]
      simp
  · subst hc
    rw [native_midi_resume]
    rw [if_pos hne]

/-- C4 witness: a non-paused, pause-disallowed song makes both calls
no-ops. -/
theorem pause_resume_preconditions_witness :
    native_midi_pause (some { exSong with playerstate := .playing }) true = [] ∧
    native_midi_resume (some { exSong with playerstate := .playing }) true = [] :=
  ⟨(pause_resume_preconditions (some { exSong with playerstate := .playing })
      true).2.1 _ rfl (by decide),
    (pause_resume_preconditions (some { exSong with playerstate := .playing })
      true).2.2.2 _ rfl (by decide)⟩

/-- C10: `set-volume` writes a SETVOL frame only when a current song
exists and its playback state is exactly PLAYING; with no song, or in
state STOPPED, STARTING or PAUSED, it writes nothing. -/
theorem setvolume_precondition (cur : Option NativeMidiSong) (v : Int)
    (wok : Bool) :
    (native_midi_setvolume none v wok = []) ∧
    (∀ song, cur = some song → song.playerstate ≠ .playing →
      native_midi_setvolume cur v wok = []) ∧
    (∀ song, cur = some song → song.playerstate = .playing →
      ∃ op, native_midi_setvolume cur v wok = [.writeFrame .setvol op]) := by
  refine ⟨rfl, fun song hc hne => ?_, fun song hc hpl => ?_⟩
  · subst hc
    rw [native_midi_setvolume]
    rw [if_pos hne]
  · subst hc
    rw [native_midi_setvolume]
    rw [if_neg (by simp [hpl])]
    exact ⟨_, rfl⟩

/-- C10 witness: in state PLAYING a frame is written; in state PAUSED the
call does nothing. -/
theorem setvolume_precondition_witness :
    (∃ op, native_midi_setvolume (some { exSong with playerstate := .playing })
      40 true = [.writeFrame .setvol op]) ∧
    native_midi_setvolume (some { exSong with playerstate := .paused })
      40 true = [] :=
  ⟨(setvolume_precondition (some { exSong with playerstate := .playing })
      40 true).2.2 _ rfl rfl,
    (setvolume_precondition (some { exSong with playerstate := .paused })
      40 true).2.1 _ rfl (by decide)⟩

/-- C7: a failed write of a PAUSE, RESUME or SETVOL frame changes nothing
about the call's behaviour (the result of `write` is discarded and the
call returns normally), while a failed QUIT write during `stop` or during
a restarting `start` aborts that call right after the write attempt: no
join of the player thread is performed and the song is left untouched. -/
theorem control_send_failure (cur : Option NativeMidiSong) (v loops : Int) :
    (∀ wok, native_midi_pause cur wok = native_midi_pause cur true ∧
      native_midi_resume cur wok = native_midi_resume cur true ∧
      native_midi_setvolume cur v wok = native_midi_setvolume cur v true) ∧
    (∀ song, cur = some song → song.playerthread = true →
      NMState.stopped.toNat < song.playerstate.toNat →
      native_midi_stop cur false = ([.writeFrame .quit 0], some song) ∧
      CtrlAction.joinThread ∉ (native_midi_stop cur false).1 ∧
      native_midi_start cur loops false = ([.writeFrame .quit 0], some song) ∧
      CtrlAction.joinThread ∉ (native_midi_start cur loops false).1) := by
  constructor
  · intro wok
    refine ⟨?_, ?_, ?_⟩ <;> cases cur <;> rfl
  · intro song hc hth hst
    subst hc
    have h1 : native_midi_stop (some song) false = ([.writeFrame .quit 0], some song) := by
      rw [native_midi_stop]
      rw [if_neg (by simp [hth]), if_pos hst, if_neg (by simp)]
    have h2 : native_midi_start (some song) loops false = ([.writeFrame .quit 0], some song) := by
      rw [native_midi_start]
      rw [if_pos (by simp [hth]), if_pos ⟨hst, rfl⟩]
    refine ⟨h1, ?_, h2, ?_⟩
    · rw [h1]
      simp
    · rw [h2]
      simp

/-- C7 witness: on a running song, `stop` and `start` with a failed QUIT
write return after the write attempt without joining. -/
theorem control_send_failure_witness :
    native_midi_stop
        (some { exSong with playerthread := true, playerstate := .playing })
        false =
      ([.writeFrame .quit 0],
        some { exSong with playerthread := true, playerstate := .playing }) ∧
    native_midi_start
        (some { exSong with playerthread := true, playerstate := .playing })
        2 false =
      ([.writeFrame .quit 0],
        some { exSong with playerthread := true, playerstate := .playing }) :=
  ⟨((control_send_failure
      (some { exSong with playerthread := true, playerstate := .playing })
      0 2).2 _ rfl rfl (by decide)).1,
   ((control_send_failure
      (some { exSong with playerthread := true, playerstate := .playing })
      0 2).2 _ rfl rfl (by decide)).2.2.1⟩

/-- C3 counterexample: a song whose playback state is STOPPED but whose
player-thread handle has not yet been reaped (the thread ended on its own)
makes `stop()` perform a join, so "no blocking join of the player thread
is attempted" is false as stated. -/
theorem stop_on_stopped_counterexample :
    ({ exSong with playerthread := true } : NativeMidiSong).playerstate =
      .stopped ∧
    CtrlAction.joinThread ∈
      (native_midi_stop (some { exSong with playerthread := true }) true).1 := by
  decide

/-- C3 amended: `stop()` on a song in state STOPPED never writes a QUIT
frame; it is a complete no-op when the player-thread handle is absent, but
when a handle is still present (a session that terminated on its own and
was never reaped) the call still joins that thread and clears the
handle. -/
theorem stop_on_stopped_amended (cur : Option NativeMidiSong) (wok : Bool)
    (song : NativeMidiSong) (hc : cur = some song)
    (hs : song.playerstate = .stopped) :
    (∀ op, CtrlAction.writeFrame .quit op ∉ (native_midi_stop cur wok).1) ∧
    (song.playerthread = false → native_midi_stop cur wok = ([], some song)) ∧
    (song.playerthread = true →
      native_midi_stop cur wok =
        ([.joinThread], some { song with playerthread := false })) := by
  subst hc
  rcases hth : song.playerthread
  · have h : native_midi_stop (some song) wok = ([], some song) := by
      rw [native_midi_stop]
      rw [if_pos (by simp [hth])]
    refine ⟨fun op => by rw [h]; simp, fun _ => h, fun hcon => by simp [hth] at hcon⟩
  · have h : native_midi_stop (some song) wok =
        ([.joinThread], some { song with playerthread := false }) := by
      rw [native_midi_stop]
      rw [if_neg (by simp [hth]), if_neg (by simp [hs, NMState.toNat])]
    refine ⟨fun op => by rw [h]; simp, fun hcon => by simp [hth] at hcon, fun _ => h⟩

/-- C3 amended witness: concrete instances of both cases. -/
theorem stop_on_stopped_amended_witness :
    native_midi_stop (some exSong) true = ([], some exSong) ∧
    native_midi_stop (some { exSong with playerthread := true }) true =
      ([.joinThread], some exSong) :=
  ⟨(stop_on_stopped_amended (some exSong) true exSong rfl rfl).2.1 rfl,
    (stop_on_stopped_amended (some { exSong with playerthread := true }) true
      _ rfl rfl).2.2 rfl⟩

/-- The pre-loop setup order as the specification words it: queue
allocated and started, tempo and resolution set, the sentinel enqueued
while the transport is still in blocking mode, the state set to PLAYING,
and only then the switch to non-blocking mode.  This definition follows
the spec's sentence and exists to be compared with `playerSetupTrace`,
which follows the code. -/
def claimedSetupTrace (song : NativeMidiSong) : List SeqAction :=
  [.allocQueue, .startQueue,
   .setQueueTempo 500000 song.ppqn,
   .enqueueEcho (song.endtime + 1),
   .setState .playing,
   .setNonblock true]

/-- C2 counterexample: the code's setup order differs from the claimed
one — `snd_seq_nonblock(seq, 1)` runs before the tempo is set and before
the sentinel enqueue (which is why the enqueue loops on `EAGAIN`), not
after the PLAYING write. -/
theorem setup_order_counterexample :
    playerSetupTrace exSong ≠ claimedSetupTrace exSong ∧
    (playerSetupTrace exSong).take 3 =
      [.allocQueue, .startQueue, .setNonblock true] := by
  decide

/-- C2 amended: before entering the loop the session allocates its timing
queue, starts it, switches the transport to non-blocking mode, sets the
queue tempo to the default 500000 µs per quarter note together with the
song's pulses-per-quarter-note resolution, synchronously enqueues the
first echo sentinel at `end_tick + 1` (spinning on the transient
try-again condition, which the earlier non-blocking switch makes
possible), and then publishes state PLAYING; `end_tick` is the time of
the last linked event. -/
theorem setup_order_amended (song : NativeMidiSong) (ws : List Wake) :
    (∃ rest, sessionTrace song ws =
      SeqAction.allocQueue :: .startQueue :: .setNonblock true ::
      .setQueueTempo 500000 song.ppqn ::
      .enqueueEcho (song.endtime + 1) :: .setState .playing :: rest) ∧
    (∀ evts ppqn dc dp ap,
      (loadSong evts ppqn dc dp ap).endtime = (evts.getLastD default).time) := by
  refine ⟨⟨(sessionRun song ws).2 ++
    (if (sessionRun song ws).1.done then
      SeqAction.setState .stopped :: cleanupTrace else []), ?_⟩,
    fun evts ppqn dc dp ap => rfl⟩
  rw [sessionTrace, playerSetupTrace]
  rfl

/-- C1: with no QUIT frame received, a session whose loop count is 0
terminates (if it terminates) having enqueued the echo sentinel exactly
once and having made exactly one pass (no rollback of the cursor); with
loop count k > 0 it terminates after exactly k rollbacks, i.e. k+1
passes, with k+1 sentinels; with a negative loop count the counter is
never decremented and the loop never reaches its `break`. -/
theorem loop_count_semantics (song : NativeMidiSong) (ws : List Wake)
    (hnq : hasQuit ws = false) :
    (song.loopcount = 0 → (sessionRun song ws).1.done = true →
      (sessionRun song ws).1.sentinels = 1 ∧
      (sessionRun song ws).1.restarts = 0) ∧
    (0 < song.loopcount → (sessionRun song ws).1.done = true →
      ((sessionRun song ws).1.restarts : Int) = song.loopcount ∧
      ((sessionRun song ws).1.sentinels : Int) = song.loopcount + 1) ∧
    (song.loopcount < 0 →
      (sessionRun song ws).1.loopcount = song.loopcount ∧
      (sessionRun song ws).1.done = false) := by
  have hinit : C1Inv song.loopcount (initPlayer song) := by
    refine ⟨rfl, fun hL => ⟨hL, by simp [initPlayer]⟩, fun _ => rfl, fun h => ?_⟩
    simp [initPlayer] at h
  have hinv : C1Inv song.loopcount (sessionRun song ws).1 :=
    run_inv song song.loopcount ws (initPlayer song) hnq hinit
  obtain ⟨i1, i2, i3, i4⟩ := hinv
  refine ⟨fun h0 hd => ?_, fun hpos hd => ?_, fun hneg => ?_⟩
  · have hl0 := i4 hd
    have h2 := i2 (by omega)
    constructor <;> omega
  · have hl0 := i4 hd
    have h2 := i2 (by omega)
    constructor <;> omega
  · have hc := i3 hneg
    refine ⟨hc, ?_⟩
    rcases hdn : (sessionRun song ws).1.done
    · rfl
    · exact absurd (i4 hdn) (by omega)

/-- C1 witness: the two-event example song with loop count 0, driven by
two send wakes and the echo delivery, terminates with one sentinel and no
rollback. -/
theorem loop_count_semantics_witness :
    (sessionRun exSong [wSend, wSend, wEcho]).1.done = true ∧
    (sessionRun exSong [wSend, wSend, wEcho]).1.sentinels = 1 ∧
    (sessionRun exSong [wSend, wSend, wEcho]).1.restarts = 0 :=
  ⟨by decide,
    ((loop_count_semantics exSong [wSend, wSend, wEcho] (by decide)).1 rfl
      (by decide)).1,
    ((loop_count_semantics exSong [wSend, wSend, wEcho] (by decide)).1 rfl
      (by decide)).2⟩

/-- C9: `set-volume` transmits its operand clamped to [0, 127]; inside the
scheduler the tracked volume starts at the default 127, is overwritten
exactly by SETVOL operands, PAUSE sends the zero-volume sysex (then stops
the queue and publishes PAUSED), and RESUME restarts the queue and re-sends
exactly the tracked volume. -/
theorem volume_roundtrip (song : NativeMidiSong) (s : PlayerState) (w : Wake)
    (v : Int) (op : Nat) :
    (∀ sng : NativeMidiSong, sng.playerstate = .playing → ∀ wok,
      native_midi_setvolume (some sng) v wok =
        [.writeFrame .setvol (min 127 (max 0 v)).toNat]) ∧
    ((step song s w).1.current_volume =
      match w.cmd with
      | some (.setvol, x) => x
      | _ => s.current_volume) ∧
    (w.cmd = some (.pause, op) → ∃ rest, (step song s w).2 =
      [.sendVolumeSysex 0, .stopQueueEvt, .setState .paused] ++ rest) ∧
    (w.cmd = some (.resume, op) → ∃ rest, (step song s w).2 =
      [.continueQueueEvt, .sendVolumeSysex s.current_volume,
        .setState .playing] ++ rest) ∧
    ((initPlayer song).current_volume = 127) := by
  refine ⟨fun sng hpl wok => ?_, ?_, fun hc => ?_, fun hc => ?_, rfl⟩
  · rw [native_midi_setvolume]
    rw [if_neg (by simp [hpl])]
    have : (if v < 0 then (0 : Int) else if v > 0x7F then 0x7F else v) =
        min 127 (max 0 v) := by
      split_ifs <;> omega
    rw [this]
  · rw [step_volume, stepCmd_volume]
  · refine ⟨(stepRest song
        (if w.echoIn then { (stepCmd s w.cmd).1 with playback_finished := true }
          else (stepCmd s w.cmd).1)
        (w.pollout && s.pollout_enabled) w.outputOk w.drainOk).2, ?_⟩
    rw [step_snd, hc]
    rfl
  · refine ⟨(stepRest song
        (if w.echoIn then { (stepCmd s w.cmd).1 with playback_finished := true }
          else (stepCmd s w.cmd).1)
        (w.pollout && s.pollout_enabled) w.outputOk w.drainOk).2, ?_⟩
    rw [step_snd, hc]
    rfl

/-- C9 witness: instantiation at a playing song, a pause wake, and an
out-of-range operand clamped to 127. -/
theorem volume_roundtrip_witness :
    native_midi_setvolume (some { exSong with playerstate := .playing })
      200 true = [.writeFrame .setvol (min 127 (max 0 (200 : Int))).toNat] ∧
    (initPlayer exSong).current_volume = 127 :=
  ⟨(volume_roundtrip exSong (initPlayer exSong)
      ⟨some (.pause, 0), false, false, true, true⟩ 200 0).1 _ rfl true,
    (volume_roundtrip exSong (initPlayer exSong)
      ⟨some (.pause, 0), false, false, true, true⟩ 200 0).2.2.2.2⟩

/-- C8: over a whole session every playback-state write follows an edge of
STOPPED → STARTING → PLAYING ⇄ PAUSED → STOPPED (with the self-loops of
repeated commands): starting from the loaded state STOPPED, `start` writes
STARTING, the setup writes PLAYING, loop writes only move between PLAYING
and PAUSED, and a terminating session writes STOPPED before any action of
its cleanup sequence. -/
theorem state_machine_invariant (song : NativeMidiSong) (ws : List Wake) :
    List.Chain (fun a b => edge a b = true) NMState.stopped
      (NMState.starting :: stateWrites (sessionTrace song ws)) ∧
    ((sessionRun song ws).1.done = true →
      ∃ pre, sessionTrace song ws =
        pre ++ SeqAction.setState .stopped :: cleanupTrace ∧
        ∀ a ∈ pre, isCleanup a = false) := by
  obtain ⟨c1, c2, c3⟩ := run_chain song ws (initPlayer song) (Or.inl rfl)
  have hsetup : stateWrites (playerSetupTrace song) = [NMState.playing] := by
    simp [playerSetupTrace, stateWrites]
  have hclean : stateWrites cleanupTrace = [] := by decide
  have hdist : stateWrites (sessionTrace song ws) =
      [NMState.playing] ++ stateWrites (sessionRun song ws).2 ++
      (if (sessionRun song ws).1.done then [NMState.stopped] else []) := by
    rw [sessionTrace]
    simp only [stateWrites, List.filterMap_append] at *
    rw [hsetup]
    congr 1
    split
    · simpa using hclean
    · simp
  have hcp : (initPlayer song).playerstate = NMState.playing := rfl
  rw [hcp] at c1 c3
  constructor
  · rw [hdist]
    rw [List.chain_cons]
    refine ⟨rfl, ?_⟩
    rw [List.cons_append, List.cons_append, List.nil_append, List.chain_cons]
    refine ⟨rfl, ?_⟩
    by_cases hd : (sessionRun song ws).1.done = true
    · rw [if_pos hd]
      refine chain_snoc _ _ _ c1 ?_
      rw [sessionRun, ← c3]
      rcases c2 with h | h <;> rw [h] <;> rfl
    · rw [if_neg hd, List.append_nil]
      exact c1
  · intro hd
    refine ⟨playerSetupTrace song ++ (sessionRun song ws).2, ?_, ?_⟩
    · rw [sessionTrace, if_pos hd, List.append_assoc]
    · intro a ha
      rcases List.mem_append.1 ha with h | h
      · exact setup_no_cleanup song a h
      · exact run_no_cleanup song ws (initPlayer song) a h

/-- C8 witness: the example session that terminates writes STOPPED ahead
of its cleanup actions. -/
theorem state_machine_invariant_witness :
    ∃ pre, sessionTrace exSong [wSend, wSend, wEcho] =
      pre ++ SeqAction.setState .stopped :: cleanupTrace ∧
      ∀ a ∈ pre, isCleanup a = false :=
  (state_machine_invariant exSong [wSend, wSend, wEcho]).2 (by decide)
